import Mathlib

/-!
Verification of the price/discount extraction and classification core of the
`coleta_produtos` scraper.

Shallow embedding conventions:
* Python strings are modelled as `List Char`; Python `float` values that hold
  currency amounts are idealised as `ℚ`.
* `None`-able values are `Option`; code paths that raise an exception which the
  caller catches are modelled by `Option`/`Except` results.
* Rational arithmetic inside the embedded code is written with the
  kernel-computable helpers `qAdd`, `qSub`, `qMul`, `qDiv`, `pyMin`
  (the Mathlib field operations on `ℚ` are not kernel-reducible); the bridge
  lemmas `qAdd_eq`, `qSub_eq`, `qMul_eq`, `qDiv_eq`, `pyMin_eq` prove that they
  agree with `+`, `-`, `*`, `/`, `min`.
-/

deriving instance DecidableEq for Except

/-- Kernel-computable addition on `ℚ` (agrees with `+`, see `qAdd_eq`). -/
def qAdd (a b : ℚ) : ℚ := Rat.divInt (a.num * b.den + b.num * a.den) (a.den * b.den)

/-- Kernel-computable subtraction on `ℚ` (agrees with `-`, see `qSub_eq`). -/
def qSub (a b : ℚ) : ℚ := Rat.divInt (a.num * b.den - b.num * a.den) (a.den * b.den)

/-- Kernel-computable multiplication on `ℚ` (agrees with `*`, see `qMul_eq`). -/
def qMul (a b : ℚ) : ℚ := Rat.divInt (a.num * b.num) (a.den * b.den)

/-- Kernel-computable division on `ℚ` (agrees with `/`, see `qDiv_eq`). -/
def qDiv (a b : ℚ) : ℚ := Rat.divInt (a.num * b.den) (a.den * b.num)

/-- Python's two-argument `min` on rationals. -/
def pyMin (a b : ℚ) : ℚ := if b < a then b else a

/-- Python's two-argument `max` on rationals. -/
def pyMax (a b : ℚ) : ℚ := if a < b then b else a

/-- Kernel-computable floor of a rational (`Int.fdiv` is floor division and
`q.den` is positive). -/
def floorQ (q : ℚ) : ℤ := q.num.fdiv q.den

theorem qAdd_eq (a b : ℚ) : qAdd a b = a + b := by
  have ha : ((a.den : ℚ)) ≠ 0 := by positivity
  have hb : ((b.den : ℚ)) ≠ 0 := by positivity
  rw [qAdd, Rat.divInt_eq_div]
  conv_rhs => rw [← Rat.num_div_den a, ← Rat.num_div_den b]
  field_simp

theorem qSub_eq (a b : ℚ) : qSub a b = a - b := by
  have ha : ((a.den : ℚ)) ≠ 0 := by positivity
  have hb : ((b.den : ℚ)) ≠ 0 := by positivity
  rw [qSub, Rat.divInt_eq_div]
  conv_rhs => rw [← Rat.num_div_den a, ← Rat.num_div_den b]
  field_simp
  ring

theorem qMul_eq (a b : ℚ) : qMul a b = a * b := by
  have ha : ((a.den : ℚ)) ≠ 0 := by positivity
  have hb : ((b.den : ℚ)) ≠ 0 := by positivity
  rw [qMul, Rat.divInt_eq_div]
  conv_rhs => rw [← Rat.num_div_den a, ← Rat.num_div_den b]
  field_simp

theorem qDiv_eq (a b : ℚ) : qDiv a b = a / b := by
  rcases eq_or_ne b 0 with rfl | hb0
  · simp [qDiv, Rat.divInt_eq_div]
  · have ha : ((a.den : ℚ)) ≠ 0 := by positivity
    have hb : ((b.den : ℚ)) ≠ 0 := by positivity
    have hbn : ((b.num : ℚ)) ≠ 0 := by
      intro h
      apply hb0
      rw [← Rat.num_div_den b, h, zero_div]
    rw [qDiv, Rat.divInt_eq_div]
    conv_rhs => rw [← Rat.num_div_den a, ← Rat.num_div_den b]
    field_simp

theorem pyMin_eq (a b : ℚ) : pyMin a b = min a b := by
  rw [pyMin]
  rcases lt_or_le b a with h | h
  · simp [h, min_eq_right h.le]
  · simp [not_lt.mpr h, min_eq_left h]

theorem pyMax_eq (a b : ℚ) : pyMax a b = max a b := by
  rw [pyMax]
  rcases lt_or_le a b with h | h
  · simp [h, max_eq_right h.le]
  · simp [not_lt.mpr h, max_eq_left h]

theorem floorQ_eq (q : ℚ) : floorQ q = ⌊q⌋ := by
  rw [floorQ, Rat.floor_def]
  exact Int.fdiv_eq_ediv _ (by positivity)

/-- Python's `round` to the nearest integer with ties going to the even
integer (banker's rounding), idealised over `ℚ`. -/
def roundHalfEven (q : ℚ) : ℤ :=
  let f : ℤ := floorQ q
  let r : ℚ := qSub q (Rat.divInt f 1)
  if r < Rat.divInt 1 2 then f
  else if Rat.divInt 1 2 < r then f + 1
  else if f % 2 = 0 then f else f + 1

/-- Python's `round(x, 2)`, idealised over `ℚ`: round `100 * x` half-to-even
and divide by `100`. -/
def pyRound2 (q : ℚ) : ℚ := Rat.divInt (roundHalfEven (qMul q 100)) 100

/-- ASCII whitespace recognised by Python's `str.strip` and `\s`. -/
def isPySpace (c : Char) : Bool :=
  c = ' ' ∨ c = '\t' ∨ c = '\n' ∨ c = '\x0d' ∨ c = '\x0b' ∨ c = '\x0c'

/-- Python's `str.strip()`: drop whitespace from both ends. -/
def pyStrip (l : List Char) : List Char :=
  ((l.dropWhile isPySpace).reverse.dropWhile isPySpace).reverse

/-- Python's `str.lower()` restricted to the ASCII and Latin-1 repertoire used
by the scraper's keyword tables ('A'-'Z' and 'À'-'Þ' except '×' map down by
0x20; everything else is unchanged). -/
def pyLowerChar (c : Char) : Char :=
  if 'A' ≤ c ∧ c ≤ 'Z' then Char.ofNat (c.toNat + 32)
  else if 0xC0 ≤ c.toNat ∧ c.toNat ≤ 0xDE ∧ c.toNat ≠ 0xD7 then Char.ofNat (c.toNat + 32)
  else c

/-- Python's `str.lower()` on a whole string. -/
def pyLower (l : List Char) : List Char := l.map pyLowerChar

/-- Python's substring test `needle in hay`. -/
def strContains (hay needle : List Char) : Bool :=
  hay.tails.any (fun t => needle.isPrefixOf t)

/-- Value of a (possibly empty) string of decimal digits, most significant
first (`digitsVal [] = 0`). -/
def digitsVal (l : List Char) : ℕ :=
  l.foldl (fun acc c => 10 * acc + (c.toNat - 48)) 0

/-- Python's `int(s)` on a candidate digit string: fails on the empty string
or on any non-digit character (the call sites only ever pass digit strings or
the empty string). -/
def pyInt (l : List Char) : Option ℕ :=
  if l ≠ [] ∧ l.all Char.isDigit then some (digitsVal l) else none

/-- Prefix before the first `.` (Python `s.split('.')[0]`). -/
def intPartDot (t : List Char) : List Char := t.takeWhile (· ≠ '.')

/-- Segment after the first `.` (Python `s.split('.')[1]` when the split has
exactly two parts, i.e. when this segment contains no further `.`). -/
def fracPartDot (t : List Char) : List Char := (t.dropWhile (· ≠ '.')).drop 1

/-- Python's `float(s)` on the strings reachable in `clean_price`: only digits
and periods can occur, and the string parses iff it has at most one period and
at least one digit.  The value of `a.b` is `a + b / 10 ^ (length of b)`. -/
def pyFloat (l : List Char) : Option ℚ :=
  if l.all (fun c => c.isDigit ∨ c = '.') then
    if '.' ∈ fracPartDot l ∨ (intPartDot l = [] ∧ fracPartDot l = []) then none
    else some (qAdd (Rat.divInt (digitsVal (intPartDot l)) 1)
                    (qDiv (Rat.divInt (digitsVal (fracPartDot l)) 1)
                          (Rat.divInt ((10:ℕ) ^ (fracPartDot l).length) 1)))
  else none

/-- Python's `str.rfind(c)`: index of the last occurrence, `-1` if absent. -/
def rfindPos (c : Char) (l : List Char) : ℤ :=
  if c ∈ l then (l.length : ℤ) - 1 - (l.reverse.indexOf c : ℤ) else -1

/-- The cleaned price text: strip the input and keep only digits, commas and
periods (`re.sub(r'[^\d,.]', '', ...)`). -/
def priceDigits (s : List Char) : List Char :=
  (pyStrip s).filter (fun c => c.isDigit ∨ c = ',' ∨ c = '.')

/-- Embedding of `DataProcessor.clean_price` (src/scrapers/utils/validators.py,
lines 74-135).  The `len(parts) == 2` test of the source is rendered as
"exactly one `.`": `parts[0]` is the prefix before the first dot and
`parts[1]` the segment after it.  A `ValueError` (from `int`/`float`) caught
by the surrounding `try` is `none`. -/
def clean_price (s : List Char) : Option ℚ :=
  if s = [] then none
  else
    let t := priceDigits s
    if t = [] then none
    else if ',' ∈ t ∧ '.' ∈ t then
      if rfindPos ',' t > rfindPos '.' t then
        -- Brazilian format 1.299,99: drop the dots, comma becomes the decimal point
        pyFloat ((t.filter (· ≠ '.')).map (fun c => if c = ',' then '.' else c))
      else
        -- American format 1,299.99: drop the commas
        pyFloat (t.filter (· ≠ ','))
    else if ',' ∈ t then
      -- both source branches (integer part length ≥ 3 or not) substitute ',' by '.'
      if (t.takeWhile (· ≠ ',')).length ≥ 3 then
        pyFloat (t.map (fun c => if c = ',' then '.' else c))
      else
        pyFloat (t.map (fun c => if c = ',' then '.' else c))
    else if '.' ∈ t then
      if '.' ∉ fracPartDot t then
        -- exactly one dot
        if (fracPartDot t).length ≤ 2 then
          match pyInt (intPartDot t) with
          | none => none            -- int('') raises ValueError
          | some n => if n < 100 then pyFloat t else pyFloat (t.filter (· ≠ '.'))
        else pyFloat (t.filter (· ≠ '.'))
      else
        -- several dots: all of them are thousands separators
        pyFloat (t.filter (· ≠ '.'))
    else
      pyFloat t

/-- Helper for `collapseWS`: `inRun` records whether the previous character
was part of a whitespace run that has already emitted its single space. -/
def collapseAux (inRun : Bool) : List Char → List Char
  | [] => []
  | c :: rest =>
    if isPySpace c then
      if inRun then collapseAux true rest else ' ' :: collapseAux true rest
    else c :: collapseAux false rest

/-- Embedding of `re.sub(r'\s+', ' ', ·)`: every maximal run of whitespace
becomes a single space. -/
def collapseWS (l : List Char) : List Char := collapseAux false l

/-- Characters kept by `re.sub(r'[^\w\sÀ-ÿ\-\(\)\[\]\/\+\.]', '', ·)`:
word characters (modelled on the ASCII and Latin-1 repertoire), whitespace,
the `À`-`ÿ` block, and the listed punctuation. -/
def allowedChar (c : Char) : Bool :=
  c.isAlpha ∨ c.isDigit ∨ c = '_' ∨ isPySpace c ∨
    (0xC0 ≤ c.toNat ∧ c.toNat ≤ 0xFF) ∨
    c = '-' ∨ c = '(' ∨ c = ')' ∨ c = '[' ∨ c = ']' ∨ c = '/' ∨ c = '+' ∨ c = '.'

/-- Embedding of `Product.validate_name` together with pydantic's
`Field(min_length=3)` check on the raw value (which runs first);
`none` models a raised `ValueError`/failed validation.  Note that the
length-3 test is made on the *stripped input*, before the cleaning
substitutions. -/
def validate_name (v : List Char) : Option (List Char) :=
  if v.length < 3 then none
  else if v = [] ∨ (pyStrip v).length < 3 then none
  else some ((collapseWS (pyStrip v)).filter allowedChar)

/-- Embedding of `Product.validate_price` (range check, value returned
unchanged): `false` models a raised `ValueError`. -/
def validPrice : Option ℚ → Bool
  | none => true
  | some v => ¬(v < 1) ∧ ¬(v > 1000000)

/-- Embedding of `Product.validate_discount`: the supplied value `_v` is
ignored and the discount recomputed from the already-validated
`original_price` and `price` entries of `values` (Python truthiness: a price
is used only when it is not `None` and not `0.0`). -/
def pydanticDiscount (_v : ℚ) (original current : Option ℚ) : ℚ :=
  match original, current with
  | some o, some c =>
      if o ≠ 0 ∧ c ≠ 0 ∧ o > c then pyRound2 (qMul (qDiv (qSub o c) o) 100) else 0
  | _, _ => 0

/-- Canonical marketplace base URL (`ScraperConfig.BASE_URL`). -/
def BASE_URL : List Char := "https://www.mercadolivre.com.br".data

/-- Embedding of `Product.validate_url`: a non-empty relative URL is prefixed
with the base URL. -/
def validate_url : Option (List Char) → Option (List Char)
  | none => none
  | some u =>
    if u ≠ [] ∧ ¬("http://".data.isPrefixOf u) ∧ ¬("https://".data.isPrefixOf u) then
      some (BASE_URL ++ u)
    else some u

/-- The validated `Product` record (pydantic model `Product` in
src/scrapers/utils/validators.py).  Fields without validators that no claim
touches (`seller`, `rating`, `reviews_count`, `scraped_at`) are omitted. -/
structure Product where
  name : List Char
  price : Option ℚ
  original_price : Option ℚ
  discount_percentage : ℚ
  url : Option (List Char)
  image_url : Option (List Char)
  is_promotion : Bool
  free_shipping : Bool
  product_id : Option (List Char)
  category : Option (List Char)
  category_confidence : ℚ
deriving DecidableEq

/-- Embedding of `Product(**data)` construction: pydantic runs the validators
in field order, collects failures (any failure aborts the construction, which
the extraction code catches), and stores the validators' return values.
`discount_percentage` is always recomputed by `pydanticDiscount`. -/
def mkProduct (name : List Char) (price original_price : Option ℚ)
    (discount_percentage : ℚ) (url image_url : Option (List Char))
    (is_promotion free_shipping : Bool) (product_id category : Option (List Char))
    (category_confidence : ℚ) : Option Product :=
  match validate_name name with
  | none => none
  | some nm =>
    if validPrice price ∧ validPrice original_price then
      some { name := nm
             price := price
             original_price := original_price
             discount_percentage := pydanticDiscount discount_percentage original_price price
             url := validate_url url
             image_url := image_url
             is_promotion := is_promotion
             free_shipping := free_shipping
             product_id := product_id
             category := category
             category_confidence := category_confidence }
    else none

/-- Python truthiness of an optional string (`None` and `""` are falsy). -/
def truthyStr : Option (List Char) → Bool
  | none => false
  | some s => s ≠ []

/-- Python truthiness of an optional float (`None` and `0.0` are falsy). -/
def truthyQ : Option ℚ → Bool
  | none => false
  | some v => v ≠ 0

/-- Leftmost-match regex search: try the matcher at every position of the
string, left to right, and return the first success (`re.search`). -/
def searchFirst {α : Type} (f : List Char → Option α) : List Char → Option α
  | [] => none
  | c :: rest =>
    match f (c :: rest) with
    | some m => some m
    | none => searchFirst f rest

/-- Matcher for the pattern `/c/(MLB\\d+)` anchored at the current position:
the literal `/c/MLB` followed by a greedy non-empty digit run; returns the
captured group `MLB` + digits. -/
def matchCatAt (l : List Char) : Option (List Char) :=
  match l with
  | '/' :: 'c' :: '/' :: 'M' :: 'L' :: 'B' :: rest =>
    let ds := rest.takeWhile Char.isDigit
    if ds = [] then none else some ('M' :: 'L' :: 'B' :: ds)
  | _ => none

/-- Keyword table of `ProductClassifier.CATEGORY_KEYWORDS`
(category name, keyword list, weight). -/
def CATEGORY_KEYWORDS : List (List Char × List (List Char) × ℚ) := [
  ("Eletrônicos, Áudio e Vídeo".data,
   ["tv".data,
    "televisão".data,
    "televisor".data,
    "smart tv".data,
    "led".data,
    "lcd".data,
    "oled".data,
    "qled".data,
    "eletrônico".data,
    "eletronico".data,
    "som".data,
    "audio".data,
    "áudio".data,
    "fone".data,
    "headset".data,
    "speaker".data,
    "caixa de som".data,
    "amplificador".data,
    "receiver".data,
    "home theater".data,
    "câmera".data,
    "camera".data,
    "fotografia".data,
    "filmadora".data,
    "drone".data,
    "gopro".data,
    "soundbar".data,
    "subwoofer".data,
    "toca-discos".data,
    "vinil".data,
    "cd player".data,
    "microfone".data,
    "mixer".data,
    "estúdio".data,
    "gravação".data], 1),
  ("Celulares e Telefones".data,
   ["smartphone".data,
    "celular".data,
    "iphone".data,
    "samsung galaxy".data,
    "xiaomi".data,
    "motorola".data,
    "lg".data,
    "huawei".data,
    "oneplus".data,
    "pixel".data,
    "telefone".data,
    "mobile".data,
    "android".data,
    "ios".data,
    "capinha".data,
    "película".data,
    "carregador".data,
    "cabo usb".data,
    "power bank".data,
    "bateria".data,
    "fone bluetooth".data,
    "airpods".data,
    "earbuds".data,
    "smartwatch".data,
    "apple watch".data,
    "celular desbloqueado".data,
    "dual chip".data,
    "5g".data,
    "4g".data,
    "smartphone android".data], 1),
  ("Informática".data,
   ["notebook".data,
    "laptop".data,
    "computador".data,
    "pc".data,
    "desktop".data,
    "all in one".data,
    "processador".data,
    "cpu".data,
    "intel".data,
    "amd".data,
    "ryzen".data,
    "core i3".data,
    "core i5".data,
    "core i7".data,
    "placa de vídeo".data,
    "gpu".data,
    "nvidia".data,
    "radeon".data,
    "geforce".data,
    "gtx".data,
    "rtx".data,
    "memória ram".data,
    "ddr4".data,
    "ddr5".data,
    "ssd".data,
    "hd".data,
    "disco rígido".data,
    "storage".data,
    "placa mãe".data,
    "motherboard".data,
    "fonte".data,
    "gabinete".data,
    "cooler".data,
    "monitor".data,
    "teclado".data,
    "mouse".data,
    "mousepad".data,
    "webcam".data,
    "microfone".data,
    "impressora".data,
    "scanner".data,
    "roteador".data,
    "modem".data,
    "wi-fi".data,
    "cabo de rede".data,
    "switch".data,
    "pendrive".data,
    "hd externo".data,
    "backup".data,
    "software".data,
    "windows".data,
    "office".data,
    "ultrabook".data,
    "chromebook".data,
    "macbook".data], 1),
  ("Casa, Móveis e Decoração".data,
   ["móvel".data,
    "movel".data,
    "sofá".data,
    "sofa".data,
    "poltrona".data,
    "cadeira".data,
    "mesa".data,
    "cama".data,
    "guarda-roupa".data,
    "armário".data,
    "armario".data,
    "estante".data,
    "rack".data,
    "aparador".data,
    "colchão".data,
    "colchao".data,
    "travesseiro".data,
    "lençol".data,
    "lencol".data,
    "edredom".data,
    "cortina".data,
    "persiana".data,
    "tapete".data,
    "carpete".data,
    "luminária".data,
    "luminaria".data,
    "abajur".data,
    "lustre".data,
    "pendente".data,
    "espelho".data,
    "quadro".data,
    "decoração".data,
    "decoracao".data,
    "vaso".data,
    "planta".data,
    "jardim".data,
    "cozinha".data,
    "banheiro".data,
    "quarto".data,
    "sala".data,
    "panela".data,
    "frigideira".data,
    "utensílio".data,
    "utensilio".data,
    "talheres".data,
    "pratos".data,
    "xícara".data,
    "xicara".data,
    "copo".data,
    "garrafa".data,
    "organizador".data,
    "gaveta".data,
    "criado-mudo".data,
    "cômoda".data,
    "penteadeira".data,
    "painel tv".data], 1),
  ("Eletrodomésticos e Casa".data,
   ["ar condicionado".data,
    "ventilador".data,
    "aquecedor".data,
    "micro-ondas".data,
    "microondas".data,
    "geladeira".data,
    "refrigerador".data,
    "freezer".data,
    "lava-louça".data,
    "lavadora".data,
    "fogão".data,
    "cooktop".data,
    "forno elétrico".data,
    "aspirador".data,
    "liquidificador".data,
    "batedeira".data,
    "processador".data,
    "cafeteira".data,
    "sanduicheira".data,
    "grill".data,
    "ferro de passar".data,
    "secadora".data,
    "lava e seca".data], 1),
  ("Roupas e Calçados".data,
   ["roupa".data,
    "vestuário".data,
    "vestuario".data,
    "camiseta".data,
    "camisa".data,
    "blusa".data,
    "top".data,
    "vestido".data,
    "saia".data,
    "short".data,
    "bermuda".data,
    "calça".data,
    "calca".data,
    "jeans".data,
    "legging".data,
    "moletom".data,
    "casaco".data,
    "jaqueta".data,
    "blazer".data,
    "colete".data,
    "sapato".data,
    "tênis".data,
    "tenis".data,
    "sandália".data,
    "sandalia".data,
    "chinelo".data,
    "bota".data,
    "sapatênis".data,
    "sapatenis".data,
    "scarpin".data,
    "salto".data,
    "rasteirinha".data,
    "bolsa".data,
    "mochila".data,
    "carteira".data,
    "necessaire".data,
    "mala".data,
    "pochete".data,
    "masculino".data,
    "feminino".data,
    "infantil".data,
    "bebê".data,
    "bebe".data,
    "polo".data,
    "regata".data,
    "cropped".data,
    "midi".data,
    "maxi".data], 1),
  ("Esportes e Fitness".data,
   ["esporte".data,
    "fitness".data,
    "academia".data,
    "ginástica".data,
    "ginastica".data,
    "musculação".data,
    "musculacao".data,
    "futebol".data,
    "bola".data,
    "chuteira".data,
    "camisa de time".data,
    "basquete".data,
    "vôlei".data,
    "volei".data,
    "tênis esportivo".data,
    "corrida".data,
    "maratona".data,
    "caminhada".data,
    "running".data,
    "bicicleta".data,
    "bike".data,
    "ciclismo".data,
    "capacete".data,
    "natação".data,
    "natacao".data,
    "piscina".data,
    "halteres".data,
    "peso".data,
    "anilha".data,
    "barra".data,
    "esteira".data,
    "elíptico".data,
    "eliptico".data,
    "yoga".data,
    "pilates".data,
    "colchonete".data,
    "faixa elástica".data,
    "suplemento".data,
    "whey".data,
    "creatina".data,
    "bcaa".data,
    "surf".data,
    "prancha".data,
    "skate".data,
    "patins".data,
    "patinete".data,
    "crossfit".data,
    "treino funcional".data,
    "kettlebell".data], 1),
  ("Livros, Revistas e Comics".data,
   ["livro".data,
    "ebook".data,
    "literatura".data,
    "romance".data,
    "ficção".data,
    "ficcao".data,
    "biografia".data,
    "autoajuda".data,
    "auto-ajuda".data,
    "negócios".data,
    "negocios".data,
    "economia".data,
    "política".data,
    "politica".data,
    "história".data,
    "historia".data,
    "geografia".data,
    "ciência".data,
    "ciencia".data,
    "matemática".data,
    "matematica".data,
    "física".data,
    "fisica".data,
    "química".data,
    "quimica".data,
    "biologia".data,
    "medicina".data,
    "psicologia".data,
    "filosofia".data,
    "sociologia".data,
    "educação".data,
    "educacao".data,
    "infantil".data,
    "juvenil".data,
    "didático".data,
    "didatico".data,
    "apostila".data,
    "curso".data,
    "revista".data,
    "gibi".data,
    "mangá".data,
    "manga".data,
    "hq".data,
    "quadrinhos".data,
    "comic".data], 1),
  ("Saúde e Beleza".data,
   ["maquiagem".data,
    "cosméticos".data,
    "cosmeticos".data,
    "batom".data,
    "base".data,
    "corretivo".data,
    "rímel".data,
    "rimel".data,
    "sombra".data,
    "blush".data,
    "pó".data,
    "po".data,
    "primer".data,
    "gloss".data,
    "perfume".data,
    "colônia".data,
    "colonia".data,
    "desodorante".data,
    "antitranspirante".data,
    "shampoo".data,
    "condicionador".data,
    "máscara capilar".data,
    "mascara capilar".data,
    "creme".data,
    "hidratante".data,
    "protetor solar".data,
    "sabonete".data,
    "esfoliante".data,
    "sérum".data,
    "serum".data,
    "tônico".data,
    "tonico".data,
    "demaquilante".data,
    "água micelar".data,
    "agua micelar".data,
    "escova".data,
    "pente".data,
    "secador".data,
    "chapinha".data,
    "babyliss".data,
    "depilador".data,
    "nail art".data,
    "esmalte".data,
    "acetona".data,
    "lixa".data,
    "alicate".data,
    "vitamina".data,
    "suplemento".data,
    "medicamento".data], 1),
  ("Games".data,
   ["video game".data,
    "videogame".data,
    "console".data,
    "playstation".data,
    "ps5".data,
    "ps4".data,
    "ps3".data,
    "xbox".data,
    "nintendo".data,
    "switch".data,
    "controle".data,
    "joystick".data,
    "gamepad".data,
    "jogo".data,
    "game".data,
    "cd".data,
    "dvd".data,
    "blu-ray".data,
    "digital".data,
    "steam".data,
    "epic".data,
    "pc gamer".data,
    "gaming".data,
    "headset gamer".data,
    "teclado gamer".data,
    "mouse gamer".data,
    "cadeira gamer".data,
    "mesa gamer".data,
    "monitor gamer".data,
    "placa de captura".data,
    "streamer".data,
    "twitch".data,
    "youtube".data,
    "fps".data,
    "rpg".data,
    "mmorpg".data,
    "battle royale".data,
    "minecraft".data,
    "fortnite".data,
    "gta".data,
    "fifa".data,
    "pes".data,
    "call of duty".data], 1),
  ("Carros, Motos e Outros".data,
   ["carro".data,
    "automóvel".data,
    "automovel".data,
    "veículo".data,
    "veiculo".data,
    "auto".data,
    "motor".data,
    "pneu".data,
    "roda".data,
    "aro".data,
    "calota".data,
    "freio".data,
    "pastilha".data,
    "disco".data,
    "amortecedor".data,
    "óleo".data,
    "oleo".data,
    "filtro".data,
    "bateria".data,
    "alternador".data,
    "radiador".data,
    "vela".data,
    "correia".data,
    "escapamento".data,
    "para-choque".data,
    "para-brisa".data,
    "farol".data,
    "lanterna".data,
    "retrovisor".data,
    "banco".data,
    "volante".data,
    "câmbio".data,
    "cambio".data,
    "embreagem".data,
    "som automotivo".data,
    "alarme".data,
    "trava".data,
    "película".data,
    "cera".data,
    "enceradeira".data,
    "aspirador automotivo".data,
    "suporte".data,
    "carregador veicular".data,
    "gps".data,
    "dvr".data,
    "moto".data,
    "motocicleta".data,
    "capacete moto".data], 1),
  ("Relógios e Joias".data,
   ["relógio".data,
    "relogio".data,
    "smartwatch".data,
    "apple watch".data,
    "citizen".data,
    "casio".data,
    "óculos".data,
    "oculos".data,
    "colar".data,
    "pulseira".data,
    "anel".data,
    "brinco".data,
    "joia".data,
    "jóia".data,
    "ouro".data,
    "prata".data,
    "folheado".data,
    "semi-joia".data], 1)]
/-- Category-id table of `ProductClassifier.ML_CATEGORY_IDS`. -/
def ML_CATEGORY_IDS : List (List Char × List Char) := [
  ("MLB1000".data, "Eletrônicos, Áudio e Vídeo".data),
  ("MLB1055".data, "Celulares e Telefones".data),
  ("MLB1648".data, "Informática".data),
  ("MLB1574".data, "Casa, Móveis e Decoração".data),
  ("MLB1556".data, "Eletrodomésticos e Casa".data),
  ("MLB1430".data, "Roupas e Calçados".data),
  ("MLB1276".data, "Esportes e Fitness".data),
  ("MLB3025".data, "Livros, Revistas e Comics".data),
  ("MLB263532".data, "Saúde e Beleza".data),
  ("MLB1144".data, "Games".data),
  ("MLB1743".data, "Carros, Motos e Outros".data),
  ("MLB1137".data, "Relógios e Joias".data)]

/-- Embedding of `ProductClassifier.classify_by_url`: search the URL for the
first `/c/MLB<digits>` token and look its id up in `ML_CATEGORY_IDS`;
confidence is `1.0` on success. -/
def classify_by_url (url : List Char) : Option (List Char) × ℚ :=
  if url = [] then (none, 0)
  else
    match searchFirst matchCatAt url with
    | some category_id =>
      match ML_CATEGORY_IDS.lookup category_id with
      | some category => (some category, 1)
      | none => (none, 0)
    | none => (none, 0)

/-- Number of keywords of a keyword list occurring (lowercased) as substrings
of the analysed text. -/
def countKw (kws : List (List Char)) (text : List Char) : ℕ :=
  (kws.filter (fun k => strContains text (pyLower k))).length

/-- Confidence formula of `classify_by_keywords`:
`min(0.1 + matches * 0.15, 0.95)`. -/
def keywordConfidence (m : ℕ) : ℚ :=
  pyMin (qAdd (Rat.divInt 1 10) (qMul (Rat.divInt m 1) (Rat.divInt 15 100)))
        (Rat.divInt 95 100)

/-- The `category_scores` mapping of `classify_by_keywords` in insertion
order: for each category with at least one keyword match, the triple
(category, score = weight * matches, matches). -/
def scoredCategories (text : List Char) : List (List Char × ℚ × ℕ) :=
  CATEGORY_KEYWORDS.filterMap (fun e =>
    let m := countKw e.2.1 text
    if m > 0 then some (e.1, qMul e.2.2 (Rat.divInt m 1), m) else none)

/-- Strict comparison of `(score, matches)` keys, lexicographically. -/
def scoreKeyGt (x y : ℚ × ℕ) : Bool := x.1 > y.1 ∨ (x.1 = y.1 ∧ x.2 > y.2)

/-- Python's `max(..., key=...)`: the first element attaining the maximal
`(score, matches)` key (later elements replace the current best only when
strictly greater). -/
def pickBest : List (List Char × ℚ × ℕ) → Option (List Char × ℚ × ℕ)
  | [] => none
  | x :: xs =>
    some (xs.foldl (fun best y => if scoreKeyGt (y.2.1, y.2.2) (best.2.1, best.2.2) then y else best) x)

/-- Number of keyword matches of a given category (by name) against a text:
the specification-side counterpart used to state the confidence formula. -/
def catMatches (cat text : List Char) : ℕ :=
  match CATEGORY_KEYWORDS.lookup cat with
  | some e => countKw e.1 text
  | none => 0

/-- Embedding of `ProductClassifier.classify_by_keywords`. -/
def classify_by_keywords (product_name product_description : List Char) :
    Option (List Char) × ℚ :=
  if product_name = [] then (none, 0)
  else
    let text := pyLower (product_name ++ ' ' :: product_description)
    match pickBest (scoredCategories text) with
    | none => (none, 0)
    | some e => (some e.1, keywordConfidence e.2.2)

/-- Embedding of `ProductClassifier.classify_product`: URL classification
short-circuits above confidence `0.8`; otherwise the keyword result is
reconciled with it. -/
def classify_product (name url description : List Char) : Option (List Char) × ℚ :=
  let ru := classify_by_url url
  if truthyStr ru.1 ∧ ru.2 > Rat.divInt 8 10 then ru
  else
    let rk := classify_by_keywords name description
    if truthyStr ru.1 ∧ truthyStr rk.1 then
      if ru.1 = rk.1 then (ru.1, pyMax ru.2 rk.2)
      else if ru.2 > rk.2 then ru else rk
    else if truthyStr ru.1 then ru
    else if truthyStr rk.1 then rk
    else (none, 0)

/-- Matcher for the pattern `ML[AB]\d+` anchored at the current position
(whole match, greedy digit run). -/
def matchMLAt (l : List Char) : Option (List Char) :=
  match l with
  | 'M' :: 'L' :: c :: rest =>
    if c = 'A' ∨ c = 'B' then
      let ds := rest.takeWhile Char.isDigit
      if ds = [] then none else some ('M' :: 'L' :: c :: ds)
    else none
  | _ => none

/-- Matcher for the pattern `/p/ML[AB]\d+` anchored at the current position
(whole match; the pattern has no capture group). -/
def matchPMLAt (l : List Char) : Option (List Char) :=
  match l with
  | '/' :: 'p' :: '/' :: rest =>
    match matchMLAt rest with
    | some m => some ('/' :: 'p' :: '/' :: m)
    | none => none
  | _ => none

/-- Matcher for the pattern `item[_-]?id[=:](\d+)` anchored at the current
position: returns (whole match, captured digit group). -/
def matchItemAt (l : List Char) : Option (List Char × List Char) :=
  match l with
  | 'i' :: 't' :: 'e' :: 'm' :: rest =>
    let sep : List Char :=
      match rest with
      | c :: _ => if c = '_' ∨ c = '-' then [c] else []
      | [] => []
    match rest.drop sep.length with
    | 'i' :: 'd' :: s :: r =>
      if s = '=' ∨ s = ':' then
        let ds := r.takeWhile Char.isDigit
        if ds = [] then none
        else some ('i' :: 't' :: 'e' :: 'm' :: (sep ++ 'i' :: 'd' :: s :: ds), ds)
      else none
    | _ => none
  | _ => none

/-- Matcher for the pattern `/(\d{10,})` anchored at the current position:
returns the captured digit group (at least 10 digits). -/
def matchLongIdAt (l : List Char) : Option (List Char) :=
  match l with
  | '/' :: rest =>
    let ds := rest.takeWhile Char.isDigit
    if ds.length ≥ 10 then some ds else none
  | _ => none

/-- Embedding of `DataProcessor.extract_product_id`: the four patterns are
tried in order and the source returns `match.group(1) if
pattern.startswith('/') else match.group(0)`.  For the second pattern
(`/p/ML[AB]\d+`, which has no capture group) `match.group(1)` would raise an
`IndexError`, modelled as `.error ()`; `searchFirst_matchPMLAt_dead` below
shows this branch is unreachable.  For the third pattern the source hence
returns the *whole* match (the pattern does not start with `/`), not the
captured digit group. -/
def extract_product_id (url : List Char) : Except Unit (Option (List Char)) :=
  if url = [] then .ok none
  else
    match searchFirst matchMLAt url with
    | some m => .ok (some m)
    | none =>
      match searchFirst matchPMLAt url with
      | some _ => .error ()
      | none =>
        match searchFirst matchItemAt url with
        | some g => .ok (some g.1)
        | none =>
          match searchFirst matchLongIdAt url with
          | some ds => .ok (some ds)
          | none => .ok none

/-- Promotion keyword list of `DataProcessor.is_promotion_indicator`. -/
def PROMOTION_KEYWORDS : List (List Char) :=
  ["desconto".data, "promoção".data, "oferta".data, "liquidação".data,
   "sale".data, "off".data, "%".data, "economize".data, "imperdível".data,
   "black friday".data, "cyber monday".data, "queima".data]

/-- Embedding of `DataProcessor.is_promotion_indicator`. -/
def is_promotion_indicator (text : List Char) : Bool :=
  if text = [] then false
  else PROMOTION_KEYWORDS.any (fun k => strContains (pyLower text) k)

/-- Shipping keyword list of `DataProcessor.has_free_shipping`. -/
def SHIPPING_KEYWORDS : List (List Char) :=
  ["frete grátis".data, "frete gratuito".data, "grátis".data,
   "free shipping".data, "sem custo de envio".data]

/-- Embedding of `DataProcessor.has_free_shipping`. -/
def has_free_shipping (text : List Char) : Bool :=
  if text = [] then false
  else SHIPPING_KEYWORDS.any (fun k => strContains (pyLower text) k)

/-- One product fragment as seen by `PlaywrightEngine._extract_single_product`:
for each selector of the fixed selector lists, the text of the first matching
element (`none` when `select_one` finds nothing; for a name candidate the text
already reflects `get_text(strip=True) or get('title', '')`, for a URL
candidate the `href` attribute).  `pageCategory` is the result of the awaited
call to the external `extract_category_from_product_page` collaborator
(`none` models a raised exception, which the source swallows). -/
structure Fragment where
  nameCands : List (Option (List Char))
  priceCands : List (Option (List Char))
  origCands : List (Option (List Char))
  urlCands : List (Option (List Char))
  imageCand : Option (List Char)
  elementText : List Char
  pageCategory : Option (Option (List Char) × ℚ)

/-- Name-candidate words that disqualify a candidate. -/
def SKIP_NAME_WORDS : List (List Char) :=
  ["economiza".data, "confira".data, "ofertas".data]

/-- Name-selection loop: first candidate that is non-empty, longer than 10
characters and free of the skip words. -/
def nameLoop : List (Option (List Char)) → Option (List Char)
  | [] => none
  | none :: rest => nameLoop rest
  | some t :: rest =>
    if t ≠ [] ∧ t.length > 10 ∧ ¬ SKIP_NAME_WORDS.any (fun w => strContains (pyLower t) w) then
      some t
    else nameLoop rest

/-- Current-price loop of `_extract_single_product`: each candidate with an
element overwrites the `price` variable with its parsed value; the loop breaks
on the first candidate whose value is truthy and `> 10`.  The accumulator is
the current value of the `price` variable (the final overwrite survives the
loop even when the `> 10` test never succeeds). -/
def priceLoop : Option ℚ → List (Option (List Char)) → Option ℚ
  | acc, [] => acc
  | acc, none :: rest => priceLoop acc rest
  | _, some txt :: rest =>
    match clean_price txt with
    | some v => if v ≠ 0 ∧ v > 10 then some v else priceLoop (some v) rest
    | none => priceLoop none rest

/-- Original-price loop of `_extract_single_product`: a candidate is accepted
(with `break`) only when its value is truthy and `> 10`, and moreover either
the current price is truthy and the candidate exceeds it, or the current
price is falsy.  Candidates failing these tests are skipped. -/
def origLoop (price : Option ℚ) : List (Option (List Char)) → Option ℚ
  | [] => none
  | none :: rest => origLoop price rest
  | some txt :: rest =>
    match clean_price txt with
    | none => origLoop price rest
    | some po =>
      if po ≠ 0 ∧ po > 10 then
        match price with
        | some pv =>
          if pv ≠ 0 then
            if po > pv then some po else origLoop price rest
          else some po
        | none => some po
      else origLoop price rest

/-- URL-selection loop: first candidate whose `href` is non-empty and
contains `ML` or `/p/`; a relative URL is prefixed with the base URL. -/
def urlLoop : List (Option (List Char)) → Option (List Char)
  | [] => none
  | none :: rest => urlLoop rest
  | some href :: rest =>
    if href ≠ [] ∧ (strContains href "ML".data ∨ strContains href "/p/".data) then
      some (if "http".data.isPrefixOf href then href else BASE_URL ++ href)
    else urlLoop rest

/-- Category choice of `_extract_single_product`: the page-level category (an
external collaborator, consulted only for truthy URLs shorter than 200
characters) wins above confidence `0.8`; otherwise the keyword/URL fallback
`classify_product` competes with it by confidence. -/
def chooseCategory (F : Fragment) (purl name : List Char) : Option (List Char) × ℚ :=
  let real :=
    if purl ≠ [] ∧ purl.length < 200 then
      match F.pageCategory with
      | some r => r
      | none => (none, 0)
    else (none, 0)
  let fb := classify_product name purl []
  if truthyStr real.1 ∧ real.2 > Rat.divInt 8 10 then real
  else if truthyStr fb.1 ∧ fb.2 > real.2 then fb
  else if truthyStr real.1 then real
  else fb

/-- Embedding of `PlaywrightEngine._extract_single_product`
(src/scrapers/engines/playwright_engine.py, lines 254-403): select name,
current price, original price and URL from the candidate lists, reject the
fragment unless `name`, `price` and `product_url` are all truthy, classify,
and construct the validated `Product` (`none` also models the outer
`except Exception: return None`). -/
def extractSingleProduct (F : Fragment) : Option Product :=
  match nameLoop F.nameCands with
  | none => none
  | some name =>
    let price := priceLoop none F.priceCands
    let original_price := origLoop price F.origCands
    let product_url := urlLoop F.urlCands
    let promo := is_promotion_indicator F.elementText || original_price.isSome ||
                 strContains (pyLower F.elementText) "off".data
    let ship := has_free_shipping F.elementText
    if name ≠ [] ∧ truthyQ price ∧ truthyStr product_url then
      match product_url with
      | some u =>
        match extract_product_id u with
        | .error _ => none
        | .ok pid =>
          let rc := chooseCategory F u name
          mkProduct name price original_price 0 product_url F.imageCand
            promo ship pid rc.1 rc.2
      | none => none
    else none

/-- Hexadecimal digit (lowercase). -/
def hexDigit (n : ℕ) : Char :=
  if n < 10 then Char.ofNat (48 + n) else Char.ofNat (87 + n)

/-- Four-digit lowercase hex rendering used by JSON `\uXXXX` escapes. -/
def hex4 (n : ℕ) : List Char :=
  [hexDigit (n / 4096 % 16), hexDigit (n / 256 % 16), hexDigit (n / 16 % 16), hexDigit (n % 16)]

/-- Escaping of one character under `json.dumps` defaults (`ensure_ascii`):
quotes, backslashes and the short escapes specially, every control or
non-ASCII character as `\uXXXX` (characters beyond the BMP, absent from the
cache keys in question, are idealised with a single escape). -/
def jsonEscapeChar (c : Char) : List Char :=
  if c = '"' then ['\\', '"']
  else if c = '\\' then ['\\', '\\']
  else if c = '\n' then ['\\', 'n']
  else if c = '\t' then ['\\', 't']
  else if c = '\x0d' then ['\\', 'r']
  else if c = '\x08' then ['\\', 'b']
  else if c = '\x0c' then ['\\', 'f']
  else if c.toNat < 32 ∨ c.toNat > 126 then '\\' :: 'u' :: hex4 c.toNat
  else [c]

/-- JSON rendering of a string literal. -/
def jsonString (s : List Char) : List Char :=
  '"' :: (s.map jsonEscapeChar).flatten ++ ['"']

/-- Decimal rendering of an integer. -/
def intRepr (n : ℤ) : List Char :=
  if n < 0 then '-' :: Nat.toDigits 10 n.natAbs else Nat.toDigits 10 n.toNat

/-- JSON parameter values occurring in the scraper's cache queries. -/
inductive JValue where
  | jstr (s : List Char)
  | jint (n : ℤ)
deriving DecidableEq

/-- JSON rendering of a parameter value. -/
def jvalRepr : JValue → List Char
  | .jstr s => jsonString s
  | .jint n => intRepr n

/-- The `sort_keys=True` ordering: parameters sorted by key (Python compares
strings lexicographically by code point; a `dict` cannot contain duplicate
keys, so the order is total on the lists considered). -/
def sortParams (ps : List (List Char × JValue)) : List (List Char × JValue) :=
  List.insertionSort (fun a b => a.1 ≤ b.1) ps

/-- Embedding of `json.dumps(params, sort_keys=True)` with the default
separators `", "` and `": "`. -/
def jsonDumps (ps : List (List Char × JValue)) : List Char :=
  '{' :: (List.intersperse ", ".data
    ((sortParams ps).map (fun p => jsonString p.1 ++ ": ".data ++ jvalRepr p.2))).flatten ++ ['}']

/-- UTF-8 encoding of one character. -/
def utf8Char (c : Char) : List ℕ :=
  let n := c.toNat
  if n < 128 then [n]
  else if n < 2048 then [192 + n / 64, 128 + n % 64]
  else if n < 65536 then [224 + n / 4096, 128 + n / 64 % 64, 128 + n % 64]
  else [240 + n / 262144, 128 + n / 4096 % 64, 128 + n / 64 % 64, 128 + n % 64]

/-- UTF-8 encoding of a string (`str.encode()`). -/
def utf8Encode (l : List Char) : List ℕ := (l.map utf8Char).flatten

/-- Reduction modulo `2^32`. -/
def m32 (n : ℕ) : ℕ := n % 4294967296

/-- MD5 sine-derived round constants. -/
def md5K : List ℕ :=
  [3614090360, 3905402710, 606105819, 3250441966, 4118548399, 1200080426,
   2821735955, 4249261313, 1770035416, 2336552879, 4294925233, 2304563134,
   1804603682, 4254626195, 2792965006, 1236535329, 4129170786, 3225465664,
   643717713, 3921069994, 3593408605, 38016083, 3634488961, 3889429448,
   568446438, 3275163606, 4107603335, 1163531501, 2850285829, 4243563512,
   1735328473, 2368359562, 4294588738, 2272392833, 1839030562, 4259657740,
   2763975236, 1272893353, 4139469664, 3200236656, 681279174, 3936430074,
   3572445317, 76029189, 3654602809, 3873151461, 530742520, 3299628645,
   4096336452, 1126891415, 2878612391, 4237533241, 1700485571, 2399980690,
   4293915773, 2240044497, 1873313359, 4264355552, 2734768916, 1309151649,
   4149444226, 3174756917, 718787259, 3951481745]

/-- MD5 per-round left-rotation amounts. -/
def md5S : List ℕ :=
  [7, 12, 17, 22, 7, 12, 17, 22, 7, 12, 17, 22, 7, 12, 17, 22,
   5, 9, 14, 20, 5, 9, 14, 20, 5, 9, 14, 20, 5, 9, 14, 20,
   4, 11, 16, 23, 4, 11, 16, 23, 4, 11, 16, 23, 4, 11, 16, 23,
   6, 10, 15, 21, 6, 10, 15, 21, 6, 10, 15, 21, 6, 10, 15, 21]

/-- Left rotation of a 32-bit word by `s` places. -/
def leftrot (x s : ℕ) : ℕ := m32 (x * 2 ^ s) + x / 2 ^ (32 - s)

/-- MD5 round functions (the complement of a 32-bit word `x` is
`4294967295 - x`). -/
def md5F (b c d : ℕ) : ℕ := (b &&& c) ||| ((4294967295 - b) &&& d)

def md5G (b c d : ℕ) : ℕ := (d &&& b) ||| ((4294967295 - d) &&& c)

def md5H (b c d : ℕ) : ℕ := b ^^^ c ^^^ d

def md5I (b c d : ℕ) : ℕ := c ^^^ (b ||| (4294967295 - d))

/-- One of the 64 MD5 operations on the state `(a, b, c, d)`. -/
def md5Step (M : List ℕ) (st : ℕ × ℕ × ℕ × ℕ) (i : ℕ) : ℕ × ℕ × ℕ × ℕ :=
  let a := st.1
  let b := st.2.1
  let c := st.2.2.1
  let d := st.2.2.2
  let fg : ℕ × ℕ :=
    if i < 16 then (md5F b c d, i)
    else if i < 32 then (md5G b c d, (5 * i + 1) % 16)
    else if i < 48 then (md5H b c d, (3 * i + 5) % 16)
    else (md5I b c d, 7 * i % 16)
  let f := m32 (fg.1 + a + md5K.getD i 0 + M.getD fg.2 0)
  (d, m32 (b + leftrot f (md5S.getD i 0)), b, c)

/-- Processing of one 16-word block. -/
def md5Block (st : ℕ × ℕ × ℕ × ℕ) (M : List ℕ) : ℕ × ℕ × ℕ × ℕ :=
  let r := (List.range 64).foldl (md5Step M) st
  (m32 (st.1 + r.1), m32 (st.2.1 + r.2.1), m32 (st.2.2.1 + r.2.2.1), m32 (st.2.2.2 + r.2.2.2))

/-- Fuel-driven 64-byte chunking (the fuel is the list length, which strictly
decreases). -/
def toChunksAux : ℕ → List ℕ → List (List ℕ)
  | 0, _ => []
  | _, [] => []
  | fuel + 1, x :: xs => ((x :: xs).take 64) :: toChunksAux fuel ((x :: xs).drop 64)

/-- Split a byte list into 64-byte chunks. -/
def toChunks (l : List ℕ) : List (List ℕ) := toChunksAux l.length l

/-- Little-endian 32-bit words of one 64-byte chunk. -/
def blockWords (blk : List ℕ) : List ℕ :=
  (List.range 16).map (fun j =>
    blk.getD (4 * j) 0 + 256 * blk.getD (4 * j + 1) 0 +
    65536 * blk.getD (4 * j + 2) 0 + 16777216 * blk.getD (4 * j + 3) 0)

/-- MD5 padding: `0x80`, zeros to 56 mod 64, 8-byte little-endian bit length. -/
def md5Pad (msg : List ℕ) : List ℕ :=
  let len := msg.length
  let padLen := (56 + 64 - (len + 1) % 64) % 64
  msg ++ 128 :: List.replicate padLen 0 ++
    (List.range 8).map (fun i => 8 * len / 2 ^ (8 * i) % 256)

/-- Lowercase little-endian hex rendering of one 32-bit word. -/
def wordHexLE (w : ℕ) : List Char :=
  ((List.range 4).map (fun i =>
    [hexDigit (w / 2 ^ (8 * i) % 256 / 16), hexDigit (w / 2 ^ (8 * i) % 16)])).flatten

/-- MD5 digest of a byte string, as a lowercase hex string
(`hashlib.md5(...).hexdigest()`). -/
def md5Hex (msg : List ℕ) : List Char :=
  let st := ((toChunks (md5Pad msg)).map blockWords).foldl md5Block
    (1732584193, 4023233417, 2562383102, 271733878)
  wordHexLE st.1 ++ wordHexLE st.2.1 ++ wordHexLE st.2.2.1 ++ wordHexLE st.2.2.2

/-- Embedding of `ScraperCache._generate_cache_key`
(src/scrapers/utils/cache.py, lines 74-77): the MD5 hex digest of
`f"{query_type}:{json.dumps(params, sort_keys=True)}"`. -/
def generate_cache_key (query_type : List Char) (params : List (List Char × JValue)) :
    List Char :=
  md5Hex (utf8Encode (query_type ++ ':' :: jsonDumps params))

theorem mkProduct_eq_some (name : List Char) (price original : Option ℚ) (d : ℚ)
    (url img : Option (List Char)) (promo ship : Bool) (pid cat : Option (List Char))
    (conf : ℚ) (prod : Product)
    (h : mkProduct name price original d url img promo ship pid cat conf = some prod) :
    validate_name name = some prod.name ∧ validPrice price = true ∧
    validPrice original = true ∧ prod.price = price ∧ prod.original_price = original ∧
    prod.discount_percentage = pydanticDiscount d original price := by
  rw [mkProduct] at h
  cases hvn : validate_name name with
  | none => rw [hvn] at h; simp at h
  | some nm =>
    rw [hvn] at h
    dsimp only at h
    by_cases hvp : validPrice price = true ∧ validPrice original = true
    · rw [if_pos hvp] at h
      obtain rfl := Option.some.inj h
      exact ⟨rfl, hvp.1, hvp.2, rfl, rfl, rfl⟩
    · rw [if_neg hvp] at h; simp at h

theorem validPrice_pos (v : ℚ) (h : validPrice (some v) = true) : 1 ≤ v := by
  simp only [validPrice, decide_eq_true_eq, Bool.and_eq_true, not_lt] at h
  simpa using h.1

/-- C6: `PriceParser.parse` returns exactly the specified values on the seven
reference inputs: `1.299,99 ↦ 1299.99`, `1,299.99 ↦ 1299.99`, `99,90 ↦ 99.90`,
`1.049 ↦ 1049.00`, `488 ↦ 488.00`, and `null` on `""` and `"abc"`. -/
theorem c6_parse_reference_values :
    clean_price "1.299,99".data = some (1299.99 : ℚ) ∧
    clean_price "1,299.99".data = some (1299.99 : ℚ) ∧
    clean_price "99,90".data = some (99.90 : ℚ) ∧
    clean_price "1.049".data = some (1049.00 : ℚ) ∧
    clean_price "488".data = some (488.00 : ℚ) ∧
    clean_price "".data = none ∧
    clean_price "abc".data = none := by
  have h1 : (1299.99 : ℚ) = Rat.divInt 129999 100 := by
    rw [Rat.divInt_eq_div]; norm_num
  have h2 : (99.90 : ℚ) = Rat.divInt 999 10 := by
    rw [Rat.divInt_eq_div]; norm_num
  have h3 : (1049.00 : ℚ) = Rat.divInt 1049 1 := by
    rw [Rat.divInt_eq_div]; norm_num
  have h4 : (488.00 : ℚ) = Rat.divInt 488 1 := by
    rw [Rat.divInt_eq_div]; norm_num
  refine ⟨?_, ?_, ?_, ?_, ?_, ?_, ?_⟩ <;> simp only [h1, h2, h3, h4] <;> decide

/-- C1: for every successful `Product` construction, the stored
`discount_percentage` equals `round(((original_price - price) /
original_price) * 100, 2)` when both prices are present with
`original_price > price`, and `0.0` in every other case — independently of
the supplied `discount_percentage` value `d`, which is ignored. -/
theorem c1_discount_invariant (name : List Char) (price original : Option ℚ) (d : ℚ)
    (url img : Option (List Char)) (promo ship : Bool) (pid cat : Option (List Char))
    (conf : ℚ) (prod : Product)
    (h : mkProduct name price original d url img promo ship pid cat conf = some prod) :
    prod.discount_percentage =
      match original, price with
      | some o, some p => if p < o then pyRound2 ((o - p) / o * 100) else 0
      | _, _ => 0 := by
  obtain ⟨-, hvp, hvo, -, -, hd⟩ := mkProduct_eq_some _ _ _ _ _ _ _ _ _ _ _ _ h
  rw [hd]
  cases original with
  | none => rfl
  | some o =>
    cases price with
    | none => rfl
    | some p =>
      have ho1 : 1 ≤ o := validPrice_pos o hvo
      have hp1 : 1 ≤ p := validPrice_pos p hvp
      have hone : qMul (qDiv (qSub o p) o) 100 = (o - p) / o * 100 := by
        rw [qSub_eq, qDiv_eq, qMul_eq]
      have hcond : (o ≠ 0 ∧ p ≠ 0 ∧ o > p) ↔ p < o :=
        ⟨fun hc => hc.2.2, fun hlt => ⟨by linarith, by linarith, hlt⟩⟩
      simp only [pydanticDiscount, hone, hcond]

def c1WitnessProduct : Product :=
  { name := "Fritadeira Air Fryer".data
    price := some 488
    original_price := some 899
    discount_percentage := pydanticDiscount 7 (some 899) (some 488)
    url := none
    image_url := none
    is_promotion := false
    free_shipping := false
    product_id := none
    category := none
    category_confidence := 0 }

theorem c1_witness :
    c1WitnessProduct.discount_percentage = pyRound2 ((899 - 488) / 899 * 100) := by
  have h := c1_discount_invariant "Fritadeira Air Fryer".data (some 488) (some 899) 7
    none none false false none none 0 c1WitnessProduct (by decide)
  rw [h]
  norm_num

/-- C10 counterexample: the name `"@@@@"` (length 4, so it passes the
pre-normalization length check) is accepted by the `Product` validation, yet
its stored normalized form is the empty string — of length `0 < 3`.  This
refutes the claim that every accepted name is at least 3 characters long
after normalization. -/
theorem c10_counterexample :
    (mkProduct "@@@@".data (some 488) none 0 none none false false none none 0).map
      Product.name = some [] ∧ ([] : List Char).length < 3 :=
  ⟨by decide, by decide⟩

/-- C10 amended: `Product` name validation checks length ≥ 3 on the *stripped
input*, before normalization; the stored name is the normalized form
(whitespace collapsed, disallowed characters removed), which may be shorter
than 3 characters or even empty. -/
theorem c10_name_validation (v : List Char) (price original : Option ℚ) (d : ℚ)
    (url img : Option (List Char)) (promo ship : Bool) (pid cat : Option (List Char))
    (conf : ℚ) (prod : Product)
    (h : mkProduct v price original d url img promo ship pid cat conf = some prod) :
    3 ≤ v.length ∧ 3 ≤ (pyStrip v).length ∧
    prod.name = (collapseWS (pyStrip v)).filter allowedChar := by
  obtain ⟨hvn, -, -, -, -, -⟩ := mkProduct_eq_some _ _ _ _ _ _ _ _ _ _ _ _ h
  unfold validate_name at hvn
  split at hvn
  · cases hvn
  · split at hvn
    · cases hvn
    · rename_i h1 h2
      push_neg at h1 h2
      exact ⟨h1, h2.2, (Option.some.inj hvn).symm⟩

def c10WitnessProduct : Product :=
  { name := "Smart TV X".data
    price := some 488
    original_price := none
    discount_percentage := 0
    url := none
    image_url := none
    is_promotion := false
    free_shipping := false
    product_id := none
    category := none
    category_confidence := 0 }

theorem c10_witness :
    3 ≤ "Smart TV X".data.length ∧ 3 ≤ (pyStrip "Smart TV X".data).length ∧
    c10WitnessProduct.name = (collapseWS (pyStrip "Smart TV X".data)).filter allowedChar :=
  c10_name_validation "Smart TV X".data (some 488) none 0 none none false false
    none none 0 c10WitnessProduct (by decide)

def c4Fragment : Fragment :=
  { nameCands := [some "Produto Qualquer Z".data]
    priceCands := [some "5".data]
    origCands := []
    urlCands := [some "/p/MLB1234567890".data]
    imageCand := none
    elementText := []
    pageCategory := none }

/-- C4: refuted by the code — a fragment whose only current-price candidate
parses to `5` (below the `> 10` sanity threshold, hence never *accepted* by
the selection policy) still yields a record, because the loop's last parsed
value survives in the `price` variable; the returned record has
`price = 5 ≤ 10`, contradicting both "price > 10 for every returned record"
and "a fragment with no acceptable current price yields no record". -/
theorem c4_price_leak :
    (extractSingleProduct c4Fragment).map Product.price = some (some (5 : ℚ)) ∧
    ¬((5 : ℚ) > 10) :=
  ⟨by decide, by decide⟩

theorem origLoop_gt_threshold (price : Option ℚ) (cands : List (Option (List Char)))
    (o : ℚ) (h : origLoop price cands = some o) : 10 < o := by
  induction cands with
  | nil => simp [origLoop] at h
  | cons c rest ih =>
    cases c with
    | none => simp only [origLoop] at h; exact ih h
    | some txt =>
      simp only [origLoop] at h
      cases hcp : clean_price txt with
      | none => rw [hcp] at h; exact ih h
      | some po =>
        rw [hcp] at h
        dsimp only at h
        by_cases hgt : po ≠ 0 ∧ po > 10
        · rw [if_pos hgt] at h
          cases price with
          | none =>
            obtain rfl := Option.some.inj h
            exact hgt.2
          | some pv =>
            dsimp only at h
            by_cases hpv : pv ≠ 0
            · rw [if_pos hpv] at h
              by_cases hpo : po > pv
              · rw [if_pos hpo] at h
                obtain rfl := Option.some.inj h
                exact hgt.2
              · rw [if_neg hpo] at h
                exact ih h
            · rw [if_neg hpv] at h
              obtain rfl := Option.some.inj h
              exact hgt.2
        · rw [if_neg hgt] at h
          exact ih h

theorem origLoop_gt_price (pv : ℚ) (cands : List (Option (List Char))) (o : ℚ)
    (hpv : pv ≠ 0) (h : origLoop (some pv) cands = some o) : pv < o := by
  induction cands with
  | nil => simp [origLoop] at h
  | cons c rest ih =>
    cases c with
    | none => simp only [origLoop] at h; exact ih h
    | some txt =>
      simp only [origLoop] at h
      cases hcp : clean_price txt with
      | none => rw [hcp] at h; exact ih h
      | some po =>
        rw [hcp] at h
        dsimp only at h
        by_cases hgt : po ≠ 0 ∧ po > 10
        · rw [if_pos hgt, if_pos hpv] at h
          by_cases hpo : po > pv
          · rw [if_pos hpo] at h
            obtain rfl := Option.some.inj h
            exact hpo
          · rw [if_neg hpo] at h
            exact ih h
        · rw [if_neg hgt] at h
          exact ih h

/-- C3: every record returned by the single-product extractor in which both
`price` and `original_price` are set satisfies `original_price > price` (and
the original price also exceeds the 10-unit sanity threshold): an
original-price candidate is only accepted when it exceeds the threshold and
either no truthy current price exists or it strictly exceeds the current
price. -/
theorem c3_original_exceeds_price (F : Fragment) (prod : Product)
    (h : extractSingleProduct F = some prod) (p o : ℚ)
    (hp : prod.price = some p) (ho : prod.original_price = some o) :
    p < o ∧ 10 < o := by
  rw [extractSingleProduct] at h
  cases hname : nameLoop F.nameCands with
  | none => rw [hname] at h; simp at h
  | some name =>
    rw [hname] at h
    dsimp only at h
    split at h
    · rename_i hc
      split at h
      · rename_i u hu
        split at h
        · simp at h
        · rename_i pid hex
          obtain ⟨-, -, -, hp', ho', -⟩ := mkProduct_eq_some _ _ _ _ _ _ _ _ _ _ _ _ h
          rw [hp] at hp'
          rw [ho] at ho'
          have hloop : origLoop (some p) F.origCands = some o := by
            rw [hp']
            exact ho'.symm
          have hpne : p ≠ 0 := by
            have hqp := hc.2.1
            rw [← hp'] at hqp
            simpa [truthyQ] using hqp
          exact ⟨origLoop_gt_price p F.origCands o hpne hloop,
            origLoop_gt_threshold (some p) F.origCands o hloop⟩
      · simp at h
    · simp at h

def c3Fragment : Fragment :=
  { nameCands := [some "Fritadeira Air Fryer 4L".data]
    priceCands := [some "R$ 488,00".data]
    origCands := [some "R$ 899,00".data]
    urlCands := [some "/p/MLB1234567890".data]
    imageCand := none
    elementText := "Fritadeira Air Fryer 4L".data
    pageCategory := none }

def c3Product : Product :=
  { name := "Fritadeira Air Fryer 4L".data
    price := some 488
    original_price := some 899
    discount_percentage := Rat.divInt 4572 100
    url := some "https://www.mercadolivre.com.br/p/MLB1234567890".data
    image_url := none
    is_promotion := true
    free_shipping := false
    product_id := some "MLB1234567890".data
    category := none
    category_confidence := 0 }

theorem c3_witness : (488 : ℚ) < 899 ∧ (10 : ℚ) < 899 :=
  c3_original_exceeds_price c3Fragment c3Product (by decide) 488 899 (by decide) (by decide)

theorem searchFirst_none {α : Type} (f : List Char → Option α) :
    ∀ l : List Char, searchFirst f l = none →
      ∀ c rest, (c :: rest) <:+ l → f (c :: rest) = none := by
  intro l
  induction l with
  | nil =>
    intro _ c rest hsuf
    exact absurd (List.suffix_nil.mp hsuf) (by simp)
  | cons x xs ih =>
    intro h c rest hsuf
    rw [searchFirst] at h
    cases hf : f (x :: xs) with
    | some m => rw [hf] at h; cases h
    | none =>
      rw [hf] at h
      rcases List.suffix_cons_iff.mp hsuf with heq | hsuf2
      · rw [← heq] at hf
        exact hf
      · exact ih h c rest hsuf2

theorem searchFirst_some {α : Type} (f : List Char → Option α) :
    ∀ (l : List Char) (m : α), searchFirst f l = some m →
      ∃ t, t <:+ l ∧ f t = some m := by
  intro l
  induction l with
  | nil => intro m h; cases h
  | cons x xs ih =>
    intro m h
    rw [searchFirst] at h
    cases hf : f (x :: xs) with
    | some m' =>
      rw [hf] at h
      exact ⟨x :: xs, List.suffix_refl _, hf.trans h⟩
    | none =>
      rw [hf] at h
      obtain ⟨t, hts, htm⟩ := ih m h
      exact ⟨t, hts.trans (List.suffix_cons x xs), htm⟩

theorem matchPMLAt_shape (l : List Char) (m : List Char) (h : matchPMLAt l = some m) :
    ∃ rest, l = '/' :: 'p' :: '/' :: rest ∧ matchMLAt rest ≠ none := by
  unfold matchPMLAt at h
  split at h
  · rename_i rest
    refine ⟨rest, rfl, ?_⟩
    intro hml
    rw [hml] at h
    cases h
  · cases h

/-- The second id pattern (`/p/ML[AB]\d+`) can never be the first to match:
whenever it matches somewhere, the first pattern (`ML[AB]\d+`) also matches,
so the `IndexError` branch of `extract_product_id` is unreachable. -/
theorem searchFirst_matchPMLAt_dead (url : List Char)
    (h : searchFirst matchMLAt url = none) :
    searchFirst matchPMLAt url = none := by
  cases hp : searchFirst matchPMLAt url with
  | none => rfl
  | some m =>
    exfalso
    obtain ⟨t, hts, htm⟩ := searchFirst_some matchPMLAt url m hp
    obtain ⟨rest, rfl, hml⟩ := matchPMLAt_shape t m htm
    have hrs : rest <:+ '/' :: 'p' :: '/' :: rest := ⟨['/', 'p', '/'], rfl⟩
    cases rest with
    | nil => exact hml (by rfl)
    | cons c rs =>
      exact hml (searchFirst_none matchMLAt url h c rs (hrs.trans hts))

/-- C9 amended: `extract_id` tries the fixed pattern list in order; when the
first matching pattern is the `item_id=`/`item-id:` pattern it returns the
*whole* matched text, including the `item_id=` prefix (group 0) — the capture
group is only returned for patterns that start with `/` — and when no pattern
matches it returns null. -/
theorem c9_extract_id_behaviour (url : List Char) :
    (∀ g : List Char × List Char,
        searchFirst matchMLAt url = none → searchFirst matchItemAt url = some g →
        extract_product_id url = .ok (some g.1)) ∧
    (searchFirst matchMLAt url = none → searchFirst matchItemAt url = none →
        searchFirst matchLongIdAt url = none → extract_product_id url = .ok none) := by
  constructor
  · intro g hml hitem
    have hurl : url ≠ [] := by
      rintro rfl
      cases hitem
    rw [extract_product_id, if_neg hurl, hml, searchFirst_matchPMLAt_dead url hml, hitem]
  · intro hml hitem hlong
    by_cases hurl : url = []
    · rw [extract_product_id, if_pos hurl]
    · rw [extract_product_id, if_neg hurl, hml, searchFirst_matchPMLAt_dead url hml,
        hitem, hlong]

theorem c9_witness :
    extract_product_id "https://example.com?item_id=12345".data =
      .ok (some "item_id=12345".data) :=
  (c9_extract_id_behaviour "https://example.com?item_id=12345".data).1
    ("item_id=12345".data, "12345".data) (by decide) (by decide)

/-- C9 counterexample: for the URL `https://example.com?item_id=12345` the
first matching pattern is the `item_id=` pattern (the marketplace-id patterns
do not match), yet `extract_id` returns `"item_id=12345"` — the whole match
including the prefix — and not the captured numeric group `"12345"` claimed
by the specification. -/
theorem c9_counterexample :
    searchFirst matchMLAt "https://example.com?item_id=12345".data = none ∧
    searchFirst matchItemAt "https://example.com?item_id=12345".data =
      some ("item_id=12345".data, "12345".data) ∧
    extract_product_id "https://example.com?item_id=12345".data =
      .ok (some "item_id=12345".data) ∧
    "item_id=12345".data ≠ "12345".data :=
  ⟨by decide, by decide, by decide, by decide⟩

theorem lookup_prop {β : Type} (p : β → Prop) :
    ∀ tbl : List (List Char × β), (∀ e ∈ tbl, p e.2) →
      ∀ id v, List.lookup id tbl = some v → p v := by
  intro tbl
  induction tbl with
  | nil => intro _ id v h; cases h
  | cons e es ih =>
    intro hall id v h
    rw [List.lookup] at h
    cases hbe : id == e.1 with
    | true =>
      rw [hbe] at h
      obtain rfl := Option.some.inj h
      exact hall e (by simp)
    | false =>
      rw [hbe] at h
      exact ih (fun e' he' => hall e' (by simp [he'])) id v h

/-- C2 amended: `classify_product` returns the table category with confidence
`1.0` when the id captured by the *first* (leftmost, greedy) `/c/MLB<digits>`
match in the URL is present in the id table — the keyword method is then not
consulted.  (As stated, over *any* occurrence of a known token, the claim
fails: an earlier unknown token shadows a later known one.) -/
theorem c2_url_token_authoritative (name url desc id cat : List Char)
    (hid : searchFirst matchCatAt url = some id)
    (hcat : ML_CATEGORY_IDS.lookup id = some cat) :
    classify_product name url desc = (some cat, 1) := by
  have hurl : url ≠ [] := by
    rintro rfl
    cases hid
  have hcb : classify_by_url url = (some cat, 1) := by
    rw [classify_by_url, if_neg hurl, hid]
    dsimp only
    rw [hcat]
  have hcne : cat ≠ [] :=
    lookup_prop (fun s => s ≠ []) ML_CATEGORY_IDS (by decide) id cat hcat
  have htr : truthyStr (some cat) = true := by simp [truthyStr, hcne]
  have h08 : (1 : ℚ) > Rat.divInt 8 10 := by
    rw [Rat.divInt_eq_div]
    norm_num
  rw [classify_product]
  dsimp only
  rw [hcb]
  dsimp only
  rw [if_pos ⟨htr, h08⟩]

theorem c2_witness :
    classify_product "Capacete Moto Fechado".data "/c/MLB1137".data [] =
      (some "Relógios e Joias".data, 1) :=
  c2_url_token_authoritative "Capacete Moto Fechado".data "/c/MLB1137".data []
    "MLB1137".data "Relógios e Joias".data (by decide) (by decide)

/-- C2 counterexample: the URL `/c/MLB999/c/MLB1000` contains the
category-identifier token `/c/MLB1000` whose id is in the table (mapping to
`Eletrônicos, Áudio e Vídeo`), but `classify_product` does not return that
category with confidence `1.0`: the regex search only considers the first
`/c/` token, `MLB999`, which is unknown, so classification falls through to
the keyword method (here: no result at all). -/
theorem c2_counterexample :
    "/c/MLB999/c/MLB1000".data =
      "/c/MLB999".data ++ ('/' :: 'c' :: '/' :: "MLB1000".data) ++ [] ∧
    ("MLB".data.isPrefixOf "MLB1000".data ∧ ("MLB1000".data.drop 3).all Char.isDigit ∧
      "MLB1000".data.drop 3 ≠ []) ∧
    ML_CATEGORY_IDS.lookup "MLB1000".data = some "Eletrônicos, Áudio e Vídeo".data ∧
    classify_product "xyz".data "/c/MLB999/c/MLB1000".data [] ≠
      (some "Eletrônicos, Áudio e Vídeo".data, 1) ∧
    classify_product "xyz".data "/c/MLB999/c/MLB1000".data [] = (none, 0) :=
  ⟨by decide, ⟨by decide, by decide, by decide⟩, by decide, by decide, by decide⟩

theorem foldl_best_mem (xs : List (List Char × ℚ × ℕ)) :
    ∀ x : List Char × ℚ × ℕ,
      xs.foldl (fun best y =>
        if scoreKeyGt (y.2.1, y.2.2) (best.2.1, best.2.2) then y else best) x ∈ x :: xs := by
  induction xs with
  | nil => intro x; simp
  | cons y ys ih =>
    intro x
    rw [List.foldl_cons]
    rcases List.mem_cons.mp
        (ih (if scoreKeyGt (y.2.1, y.2.2) (x.2.1, x.2.2) = true then y else x)) with h | h
    · rw [h]
      by_cases hc : scoreKeyGt (y.2.1, y.2.2) (x.2.1, x.2.2) = true
      · rw [if_pos hc]
        simp
      · rw [if_neg hc]
        simp
    · simp [h]

theorem pickBest_mem (l : List (List Char × ℚ × ℕ)) (e : List Char × ℚ × ℕ)
    (h : pickBest l = some e) : e ∈ l := by
  cases l with
  | nil => cases h
  | cons x xs =>
    rw [pickBest] at h
    obtain rfl := Option.some.inj h
    exact foldl_best_mem xs x

theorem lookup_of_mem_nodup {β : Type} :
    ∀ tbl : List (List Char × β), (tbl.map Prod.fst).Nodup →
      ∀ e ∈ tbl, List.lookup e.1 tbl = some e.2 := by
  intro tbl
  induction tbl with
  | nil => intro _ e he; cases he
  | cons hd es ih =>
    intro hnd e he
    rw [List.map_cons, List.nodup_cons] at hnd
    rcases List.mem_cons.mp he with rfl | hes
    · rw [List.lookup, beq_self_eq_true]
    · have hne : e.1 ≠ hd.1 := by
        intro heq
        exact hnd.1 (heq ▸ List.mem_map_of_mem Prod.fst hes)
      rw [List.lookup]
      have hbe : (e.1 == hd.1) = false := beq_eq_false_iff_ne.mpr hne
      rw [hbe]
      exact ih hnd.2 e hes

theorem mem_scoredCategories (text : List Char) (e : List Char × ℚ × ℕ)
    (h : e ∈ scoredCategories text) : e.2.2 = catMatches e.1 text := by
  rw [scoredCategories] at h
  obtain ⟨entry, hmem, hfe⟩ := List.mem_filterMap.mp h
  dsimp only at hfe
  by_cases hm : 0 < countKw entry.2.1 text
  · rw [if_pos hm] at hfe
    obtain rfl := Option.some.inj hfe
    dsimp only [catMatches]
    have hlk : CATEGORY_KEYWORDS.lookup entry.1 = some entry.2 :=
      lookup_of_mem_nodup CATEGORY_KEYWORDS (by decide) entry hmem
    rw [hlk]
  · rw [if_neg hm] at hfe
    cases hfe

theorem keywordConfidence_eq (m : ℕ) :
    keywordConfidence m = min ((0.1 : ℚ) + (m : ℚ) * 0.15) 0.95 := by
  rw [keywordConfidence, pyMin_eq, qAdd_eq, qMul_eq]
  simp only [Rat.divInt_eq_div]
  push_cast
  norm_num

theorem keywordConfidence_mono (m m' : ℕ) (h : m ≤ m') :
    keywordConfidence m ≤ keywordConfidence m' := by
  rw [keywordConfidence_eq, keywordConfidence_eq]
  apply min_le_min _ le_rfl
  have : (m : ℚ) ≤ (m' : ℚ) := by exact_mod_cast h
  nlinarith

/-- C7: whenever the keyword method returns a category, the returned
confidence is exactly `min(0.1 + matches * 0.15, 0.95)` where `matches` is
the number of that category's keywords occurring as substrings of the
lowercased `name + " " + description`; consequently the confidence never
exceeds `0.95` and is monotonically non-decreasing in the match count. -/
theorem c7_keyword_confidence (name desc cat : List Char) (conf : ℚ)
    (h : classify_by_keywords name desc = (some cat, conf)) :
    conf = min ((0.1 : ℚ) +
      (catMatches cat (pyLower (name ++ ' ' :: desc)) : ℚ) * 0.15) 0.95 ∧
    conf ≤ 0.95 ∧
    ∀ m m' : ℕ, m ≤ m' → keywordConfidence m ≤ keywordConfidence m' := by
  rw [classify_by_keywords] at h
  split at h
  · simp at h
  · dsimp only at h
    cases hpb : pickBest (scoredCategories (pyLower (name ++ ' ' :: desc))) with
    | none => rw [hpb] at h; simp at h
    | some e =>
      rw [hpb] at h
      have hcat := congrArg Prod.fst h
      have hconf := congrArg Prod.snd h
      dsimp only at hcat hconf
      obtain rfl := Option.some.inj hcat
      have hmatch := mem_scoredCategories _ e (pickBest_mem _ e hpb)
      refine ⟨?_, ?_, keywordConfidence_mono⟩
      · rw [← hconf, ← hmatch, keywordConfidence_eq]
      · rw [← hconf, keywordConfidence_eq]
        exact min_le_right _ _

theorem c7_witness :
    (Rat.divInt 55 100 : ℚ) = min ((0.1 : ℚ) +
      (catMatches "Eletrônicos, Áudio e Vídeo".data
        (pyLower ("Smart TV LED 50".data ++ ' ' :: [])) : ℚ) * 0.15) 0.95 ∧
    (Rat.divInt 55 100 : ℚ) ≤ 0.95 ∧
    ∀ m m' : ℕ, m ≤ m' → keywordConfidence m ≤ keywordConfidence m' :=
  c7_keyword_confidence "Smart TV LED 50".data [] "Eletrônicos, Áudio e Vídeo".data
    (Rat.divInt 55 100) (by decide)

instance : IsTotal (List Char × JValue) (fun a b => a.1 ≤ b.1) :=
  ⟨fun a b => le_total a.1 b.1⟩

instance : IsTrans (List Char × JValue) (fun a b => a.1 ≤ b.1) :=
  ⟨fun _ _ _ h1 h2 => le_trans h1 h2⟩

instance : IsAntisymm (List Char × JValue) (fun a b => a.1 < b.1) :=
  ⟨fun _ _ h1 h2 => absurd h1 (lt_asymm h2)⟩

/-- C8: cache-key derivation is deterministic and order-independent — for any
query type and any two parameter lists holding the same key/value pairs (in
any order, with the keys forming a set, as in a Python `dict`), the generated
MD5 hex keys coincide. -/
theorem c8_cache_key_order_independent (qt : List Char)
    (p1 p2 : List (List Char × JValue)) (hperm : p1.Perm p2)
    (hnd : (p1.map Prod.fst).Nodup) :
    generate_cache_key qt p1 = generate_cache_key qt p2 := by
  have hsp1 : (sortParams p1).Perm p1 := List.perm_insertionSort _ _
  have hsp2 : (sortParams p2).Perm p2 := List.perm_insertionSort _ _
  have hndp2 : (p2.map Prod.fst).Nodup := (hperm.map Prod.fst).nodup_iff.mp hnd
  have hnd1 : ((sortParams p1).map Prod.fst).Nodup := (hsp1.map Prod.fst).nodup_iff.mpr hnd
  have hnd2 : ((sortParams p2).map Prod.fst).Nodup := (hsp2.map Prod.fst).nodup_iff.mpr hndp2
  have hlt1 : (sortParams p1).Sorted (fun a b : List Char × JValue => a.1 < b.1) := by
    have hle : (sortParams p1).Sorted (fun a b : List Char × JValue => a.1 ≤ b.1) :=
      List.sorted_insertionSort _ _
    have hne : (sortParams p1).Pairwise (fun a b => a.1 ≠ b.1) := List.pairwise_map.mp hnd1
    exact (hle.and hne).imp fun hab => lt_of_le_of_ne hab.1 hab.2
  have hlt2 : (sortParams p2).Sorted (fun a b : List Char × JValue => a.1 < b.1) := by
    have hle : (sortParams p2).Sorted (fun a b : List Char × JValue => a.1 ≤ b.1) :=
      List.sorted_insertionSort _ _
    have hne : (sortParams p2).Pairwise (fun a b => a.1 ≠ b.1) := List.pairwise_map.mp hnd2
    exact (hle.and hne).imp fun hab => lt_of_le_of_ne hab.1 hab.2
  have hsorted : sortParams p1 = sortParams p2 :=
    List.eq_of_perm_of_sorted (hsp1.trans (hperm.trans hsp2.symm)) hlt1 hlt2
  rw [generate_cache_key, generate_cache_key, jsonDumps, jsonDumps, hsorted]

theorem c8_witness :
    generate_cache_key "search_term".data
      [("term".data, JValue.jstr "tv".data), ("max".data, JValue.jint 10)] =
    generate_cache_key "search_term".data
      [("max".data, JValue.jint 10), ("term".data, JValue.jstr "tv".data)] :=
  c8_cache_key_order_independent "search_term".data _ _ (by decide) (by decide)

theorem intPartDot_of_not_mem (l : List Char) (h : '.' ∉ l) : intPartDot l = l := by
  rw [intPartDot]
  induction l with
  | nil => rfl
  | cons c cs ih =>
    have hc : c ≠ '.' := fun he => h (he ▸ List.mem_cons_self c cs)
    rw [List.takeWhile_cons, if_pos (by simpa using hc),
      ih (fun hm => h (List.mem_cons_of_mem c hm))]

theorem fracPartDot_of_not_mem (l : List Char) (h : '.' ∉ l) : fracPartDot l = [] := by
  rw [fracPartDot]
  have hd : l.dropWhile (· ≠ '.') = [] := by
    induction l with
    | nil => rfl
    | cons c cs ih =>
      have hc : c ≠ '.' := fun he => h (he ▸ List.mem_cons_self c cs)
      rw [List.dropWhile_cons, if_pos (by simpa using hc),
        ih (fun hm => h (List.mem_cons_of_mem c hm))]
  rw [hd]
  rfl

theorem pyFloat_digits (l : List Char) (hall : ∀ c ∈ l, c.isDigit) :
    pyFloat l = if l = [] then none else some ((digitsVal l : ℚ)) := by
  have hnd : '.' ∉ l := fun hm => by simpa using hall '.' hm
  have hcond : l.all (fun c => c.isDigit ∨ c = '.') = true := by
    rw [List.all_eq_true]
    intro c hc
    simp [hall c hc]
  rw [pyFloat, if_pos hcond, intPartDot_of_not_mem l hnd, fracPartDot_of_not_mem l hnd]
  by_cases hl : l = []
  · rw [if_pos (Or.inr ⟨hl, rfl⟩), if_pos hl]
  · rw [if_neg (by simp [hl]), if_neg hl]
    congr 1
    rw [qAdd_eq, qDiv_eq]
    simp only [Rat.divInt_eq_div, show digitsVal ([] : List Char) = 0 from rfl]
    push_cast
    norm_num

theorem pyFloat_one_dot (l : List Char) (hall : l.all (fun c => c.isDigit ∨ c = '.') = true)
    (hone : '.' ∉ fracPartDot l) (hint : intPartDot l ≠ []) :
    pyFloat l = some ((digitsVal (intPartDot l) : ℚ) +
      (digitsVal (fracPartDot l) : ℚ) / 10 ^ (fracPartDot l).length) := by
  rw [pyFloat, if_pos hall,
    if_neg (by rintro (hc | hc); exacts [hone hc, hint hc.1])]
  congr 1
  rw [qAdd_eq, qDiv_eq]
  simp only [Rat.divInt_eq_div]
  push_cast
  have h10 : ((10 : ℚ) ^ (fracPartDot l).length) ≠ 0 := by positivity
  field_simp

/-- C5 amended: for an input whose cleaned form contains `.` but no `,`:
with exactly one `.`, a fractional part of at most 2 digits and a *non-empty*
integer part below 100, the `.` is a decimal point and the value is returned
as written; with exactly one `.`, a short fractional part but an *empty*
integer part, the numeric conversion fails and the parse returns null (the
case the original claim misses); in every other case all `.` are removed as
thousands separators and the concatenated digits are returned (null when no
digit remains). -/
theorem c5_dot_disambiguation (s t : List Char) (ht : priceDigits s = t)
    (hs : s ≠ []) (hdot : '.' ∈ t) (hnc : ',' ∉ t) :
    (('.' ∉ fracPartDot t ∧ (fracPartDot t).length ≤ 2 ∧ intPartDot t ≠ [] ∧
        digitsVal (intPartDot t) < 100) →
      clean_price s = some ((digitsVal (intPartDot t) : ℚ) +
        (digitsVal (fracPartDot t) : ℚ) / 10 ^ (fracPartDot t).length)) ∧
    (('.' ∉ fracPartDot t ∧ (fracPartDot t).length ≤ 2 ∧ intPartDot t = []) →
      clean_price s = none) ∧
    (('.' ∈ fracPartDot t ∨ 2 < (fracPartDot t).length ∨
        (intPartDot t ≠ [] ∧ 100 ≤ digitsVal (intPartDot t))) →
      clean_price s = if t.filter (· ≠ '.') = [] then none
        else some ((digitsVal (t.filter (· ≠ '.')) : ℚ))) := by
  subst ht
  have hne : priceDigits s ≠ [] := List.ne_nil_of_mem hdot
  have hmemc : ∀ c ∈ priceDigits s, c.isDigit ∨ c = '.' := by
    intro c hcmem
    have h1 : c ∈ (pyStrip s).filter (fun c => c.isDigit ∨ c = ',' ∨ c = '.') := by
      rw [priceDigits] at hcmem
      exact hcmem
    have h2 : c.isDigit ∨ c = ',' ∨ c = '.' := by
      simpa using List.of_mem_filter h1
    rcases h2 with h | h | h
    · exact Or.inl h
    · exact absurd (h ▸ hcmem) hnc
    · exact Or.inr h
  have hall : (priceDigits s).all (fun c => c.isDigit ∨ c = '.') = true := by
    rw [List.all_eq_true]
    intro c hc
    simpa using hmemc c hc
  have hintdig : ∀ c ∈ intPartDot (priceDigits s), c.isDigit := by
    intro c hc
    have hmem : c ∈ priceDigits s := (List.takeWhile_sublist _).subset hc
    have hcdot : c ≠ '.' := by simpa using List.mem_takeWhile_imp hc
    rcases hmemc c hmem with h | h
    · exact h
    · exact absurd h hcdot
  have hfiltdig : ∀ c ∈ (priceDigits s).filter (· ≠ '.'), c.isDigit := by
    intro c hc
    have hmem : c ∈ priceDigits s := List.mem_of_mem_filter hc
    have hcdot : c ≠ '.' := by simpa using List.of_mem_filter hc
    rcases hmemc c hmem with h | h
    · exact h
    · exact absurd h hcdot
  have hfilt := pyFloat_digits ((priceDigits s).filter (· ≠ '.')) hfiltdig
  have hbase : clean_price s =
      (if '.' ∉ fracPartDot (priceDigits s) then
        if (fracPartDot (priceDigits s)).length ≤ 2 then
          match pyInt (intPartDot (priceDigits s)) with
          | none => none
          | some n => if n < 100 then pyFloat (priceDigits s)
              else pyFloat ((priceDigits s).filter (· ≠ '.'))
        else pyFloat ((priceDigits s).filter (· ≠ '.'))
      else pyFloat ((priceDigits s).filter (· ≠ '.'))) := by
    rw [clean_price, if_neg hs]
    dsimp only
    rw [if_neg hne, if_neg (fun hc => hnc hc.1), if_neg hnc, if_pos hdot]
  refine ⟨?_, ?_, ?_⟩
  · rintro ⟨hone, hlen, hint, hval⟩
    rw [hbase, if_pos hone, if_pos hlen]
    have hpi : pyInt (intPartDot (priceDigits s)) =
        some (digitsVal (intPartDot (priceDigits s))) := by
      rw [pyInt, if_pos]
      refine ⟨hint, ?_⟩
      rw [List.all_eq_true]
      intro c hc
      exact hintdig c hc
    rw [hpi]
    dsimp only
    rw [if_pos hval]
    exact pyFloat_one_dot _ hall hone hint
  · rintro ⟨hone, hlen, hint⟩
    rw [hbase, if_pos hone, if_pos hlen]
    have hpi : pyInt (intPartDot (priceDigits s)) = none := by
      rw [pyInt, if_neg]
      rintro ⟨hne', -⟩
      exact hne' hint
    rw [hpi]
  · intro hcase
    rw [hbase]
    by_cases hfr : '.' ∈ fracPartDot (priceDigits s)
    · rw [if_neg (fun hc => hc hfr)]
      exact hfilt
    · rw [if_pos hfr]
      rcases hcase with hcase | hcase | hcase
      · exact absurd hcase hfr
      · rw [if_neg (not_le.mpr hcase)]
        exact hfilt
      · by_cases hlen : (fracPartDot (priceDigits s)).length ≤ 2
        · rw [if_pos hlen]
          have hpi : pyInt (intPartDot (priceDigits s)) =
              some (digitsVal (intPartDot (priceDigits s))) := by
            rw [pyInt, if_pos]
            refine ⟨hcase.1, ?_⟩
            rw [List.all_eq_true]
            intro c hc
            exact hintdig c hc
          rw [hpi]
          dsimp only
          rw [if_neg (not_lt.mpr hcase.2)]
          exact hfilt
        · rw [if_neg hlen]
          exact hfilt

/-- C5 counterexample: the input `".99"` cleans to itself — one `.`, no `,`,
a two-digit fractional part, an *empty* integer part.  The claim's
"otherwise" branch asserts the dots are removed and `99` returned, but
`int('')` raises, so the code returns null. -/
theorem c5_counterexample :
    priceDigits ".99".data = ".99".data ∧
    '.' ∉ fracPartDot ".99".data ∧
    (fracPartDot ".99".data).length ≤ 2 ∧
    intPartDot ".99".data = [] ∧
    clean_price ".99".data = none ∧
    clean_price ".99".data ≠ some (99 : ℚ) :=
  ⟨by decide, by decide, by decide, by decide, by decide, by decide⟩

theorem c5_witness :
    clean_price "1.049".data =
      (if (priceDigits "1.049".data).filter (· ≠ '.') = [] then none
        else some ((digitsVal ((priceDigits "1.049".data).filter (· ≠ '.')) : ℚ))) :=
  (c5_dot_disambiguation "1.049".data (priceDigits "1.049".data) rfl (by decide)
    (by decide) (by decide)).2.2 (by decide)
